import Mathlib

/-!
Verification of the MFT-Analysis stock visualizer dashboard
(`src/visualization/main.py`) against its natural-language specification.

The program is a Streamlit script over pandas dataframes.  We shallowly
embed it:

* a dataframe row (`Record` of the spec) becomes the structure `Row`
  with the three required columns `symbol`, `datetime`, `close`;
  `datetime` is modelled as an integer timestamp (the value after the
  `pd.to_datetime` coercion), and `close` as an exact integer number of
  minimal currency units (cents) — the program performs no arithmetic on
  prices, only selection and two-decimal formatting, so the exact-cents
  model captures the float column faithfully on its used operations;
* a dataframe becomes a `List Row`; `pd.concat(..., ignore_index=True)`
  becomes `List.flatten`, boolean-mask filtering becomes `List.filter`,
  `sort_values` becomes `List.insertionSort`, `tail(10)` becomes a
  `drop (length - 10)`;
* Streamlit message calls (`st.error`, `st.warning`, `st.info`,
  `st.success`) are collected in a `List Msg` returned alongside each
  function's value; the script's top-level control flow becomes pure
  functions from the inputs (uploaded blobs / folder contents) to the
  emitted messages plus a `RenderResult` describing what was rendered;
* `pd.read_csv` outcomes for each input file are part of the input
  (an `Except String (List Row)`), since file contents and the pandas
  parser are outside the program;
* `to_csv(index=False)` / re-parsing are modelled by a character-level
  CSV codec over the three columns, with numeric cells serialized as
  exact decimal numerals and unquoted text cells (pandas leaves cells
  unquoted exactly when they contain no separator, quote or newline).
-/

/-- One dataframe row: the `Record` of the spec.  `close` is in cents. -/
structure Row where
  symbol : String
  datetime : Int
  close : Int
  deriving DecidableEq, Repr

/-- A Streamlit UI message, tagged by the emitting call. -/
inductive Msg where
  | info (text : String)
  | warning (text : String)
  | error (text : String)
  | success (text : String)
  deriving DecidableEq, Repr

/-- An uploaded file blob together with the outcome of `pd.read_csv` on
it: either the parsed rows or the exception text. -/
structure UploadedFile where
  name : String
  parsed : Except String (List Row)

/-- A file found on disk by the `*.csv` glob, with its `pd.read_csv`
outcome. -/
structure FolderFile where
  path : String
  parsed : Except String (List Row)

/-- The filesystem as seen by folder mode: `os.path.exists` and the
result of `glob.glob(os.path.join(path, "*.csv"))`. -/
structure Fs where
  pathIsThere : String → Bool
  csvGlob : String → List FolderFile

/-- The rows of a parse outcome, `[]` for a failed parse. -/
def parsedRows (p : Except String (List Row)) : List Row :=
  match p with
  | .ok t => t
  | .error _ => []

/-- The `st.error` messages emitted inside the loop of `load_uploaded_data`,
one per file whose `pd.read_csv` raised. -/
def uploadMsgs (uploadedFiles : List UploadedFile) : List Msg :=
  uploadedFiles.filterMap fun f =>
    match f.parsed with
    | .error e => some (Msg.error ("Could not load " ++ f.name ++ ": " ++ e))
    | .ok _ => none

/-- The `dfs` list accumulated by `load_uploaded_data` /
`load_data_from_folder`: the successfully parsed tables, in file order. -/
def parsedTables (parsedOf : α → Except String (List Row)) (files : List α) :
    List (List Row) :=
  files.filterMap fun f => (parsedOf f).toOption

/-- Model of `load_uploaded_data` from `main.py`: errors for unparsable files,
`none` when no file list or no file parsed, otherwise the concatenation
of all successfully parsed tables. -/
def load_uploaded_data (uploadedFiles : List UploadedFile) :
    List Msg × Option (List Row) :=
  if uploadedFiles.isEmpty then ([], none)
  else if (parsedTables UploadedFile.parsed uploadedFiles).isEmpty then
    (uploadMsgs uploadedFiles, none)
  else
    (uploadMsgs uploadedFiles,
     some (parsedTables UploadedFile.parsed uploadedFiles).flatten)

/-- The `st.warning` messages emitted inside the loop of
`load_data_from_folder`, one per file whose `pd.read_csv` raised. -/
def folderMsgs (files : List FolderFile) : List Msg :=
  files.filterMap fun f =>
    match f.parsed with
    | .error e => some (Msg.warning ("Could not load " ++ f.path ++ ": " ++ e))
    | .ok _ => none

/-- Model of `load_data_from_folder` from `main.py`: `none` when the glob is
empty or no file parsed, warnings for unparsable files, otherwise the
concatenation of all successfully parsed tables. -/
def load_data_from_folder (files : List FolderFile) :
    List Msg × Option (List Row) :=
  if files.isEmpty then ([], none)
  else if (parsedTables FolderFile.parsed files).isEmpty then
    (folderMsgs files, none)
  else
    (folderMsgs files, some (parsedTables FolderFile.parsed files).flatten)

/-- The state of the script after the data-acquisition section: the
messages shown, the `data` variable, and whether the loading function
was invoked at all. -/
structure LoadOutcome where
  msgs : List Msg
  data : Option (List Row)
  loadInvoked : Bool
  deriving DecidableEq, Repr

/-- Upload-mode acquisition: the `if data_source == "Upload CSV files"`
branch of `main.py`. -/
def run_upload_load (uploadedFiles : List UploadedFile) : LoadOutcome :=
  if uploadedFiles.isEmpty then
    ⟨[Msg.info "👆 Please upload your CSV files to get started"], none, false⟩
  else
    let r := load_uploaded_data uploadedFiles
    ⟨r.1, r.2, true⟩

/-- Folder-mode acquisition: the `else` branch of `main.py`.  A missing
folder is reported without invoking `load_data_from_folder`; a `None`
return is reported as `No CSV files found`. -/
def run_folder_load (fs : Fs) (folderPath : String) : LoadOutcome :=
  if folderPath = "" then
    ⟨[Msg.info "👆 Please enter a folder path to get started"], none, false⟩
  else if fs.pathIsThere folderPath then
    let r := load_data_from_folder (fs.csvGlob folderPath)
    match r.2 with
    | none => ⟨r.1 ++ [Msg.error ("No CSV files found in: " ++ folderPath)], none, true⟩
    | some t => ⟨r.1, some t, true⟩
  else
    ⟨[Msg.error ("Folder does not exist: " ++ folderPath)], none, false⟩

/-- The row order used by `sort_values("datetime")`: non-decreasing
`datetime`. -/
def Row.dtLE (a b : Row) : Prop := a.datetime ≤ b.datetime

instance : DecidableRel Row.dtLE := fun a b => inferInstanceAs (Decidable (a.datetime ≤ b.datetime))

instance : IsTotal Row Row.dtLE := ⟨fun a b => le_total a.datetime b.datetime⟩

instance : IsTrans Row Row.dtLE := ⟨fun _ _ _ h h' => le_trans h h'⟩

/-- Python's string order, used by `sorted(...)`: lexicographic by code
point, phrased on the character lists. -/
def strLE (a b : String) : Prop := ¬ b.toList < a.toList

instance : DecidableRel strLE := fun a b =>
  inferInstanceAs (Decidable (¬ b.toList < a.toList))

theorem strLE_iff (a b : String) : strLE a b ↔ a ≤ b := by
  unfold strLE
  rw [← String.lt_iff_toList_lt]
  exact not_lt

instance : IsTotal String strLE :=
  ⟨fun a b => by rw [strLE_iff, strLE_iff]; exact le_total a b⟩

instance : IsTrans String strLE :=
  ⟨fun a b c hab hbc => by
    rw [strLE_iff] at hab hbc ⊢
    exact le_trans hab hbc⟩

/-- Model of `sorted(data["symbol"].unique())`: the distinct symbols, ascending. -/
def symbolChoices (data : List Row) : List String :=
  ((data.map Row.symbol).dedup).insertionSort strLE

/-- Model of `data[data["symbol"] == selected_symbol].copy()` followed by
`sort_values("datetime")`: the Filtered View. -/
def filtered_data (data : List Row) (selectedSymbol : String) : List Row :=
  ((data.filter fun r => r.symbol == selectedSymbol).insertionSort Row.dtLE)

/-- Two-digit zero-padded numeral, for the cents part of a price. -/
def pad2 (n : Nat) : String :=
  if n < 10 then "0" ++ toString n else toString n

/-- Model of the `.2f` float format on an exact cents value. -/
def fmt2 (c : Int) : String :=
  (if c < 0 then "-" else "") ++ toString (c.natAbs / 100) ++ "." ++ pad2 (c.natAbs % 100)

/-- Model of `df.tail(n)`: the last `min n (length)` rows. -/
def tailRows (n : Nat) (l : List Row) : List Row :=
  l.drop (l.length - n)

/-- Everything drawn on a successful render pass: success banner, the
dropdown and the selection, the three metrics, the chart data, the
10-row preview, and the CSV export. -/
structure Page where
  bannerText : String
  choices : List String
  selectedSymbol : String
  recordsMetric : Nat
  dateRangeMetric : String
  latestCloseMetric : String
  chartPoints : List (Int × Int)
  chartTitle : String
  preview : List Row
  exportCsvText : String
  exportFileName : String
  deriving DecidableEq, Repr

/-- What the `if data is not None:` block of `main.py` renders. -/
inductive RenderResult where
  | nothingRendered
  | noDataError
  | emptySymbolWarning (choices : List String) (selectedSymbol : String)
  | page (p : Page)
  deriving DecidableEq, Repr

/-- The success banner (an f-string over the record count and
the symbol count). -/
def bannerOf (data : List Row) : String :=
  "✅ Loaded " ++ toString data.length ++ " records from "
    ++ toString (data.map Row.symbol).dedup.length ++ " symbols"

/-- The page rendered for a non-empty Filtered View of `sel`: the three
metrics, the chart, the tail-10 preview and the download artifact. -/
def pageOf (toCsv : List Row → String) (data : List Row) (sel : String) : Page :=
  let fd := filtered_data data sel
  { bannerText := bannerOf data
    choices := symbolChoices data
    selectedSymbol := sel
    recordsMetric := fd.length
    dateRangeMetric :=
      toString ((fd.map Row.datetime).foldl min ((fd.map Row.datetime).headD 0))
        ++ " to "
        ++ toString ((fd.map Row.datetime).foldl max ((fd.map Row.datetime).headD 0))
    latestCloseMetric := "$" ++ fmt2 ((fd.map Row.close).getLastD 0)
    chartPoints := fd.map fun r => (r.datetime, r.close)
    chartTitle := sel ++ " - Close Price Over Time"
    preview := tailRows 10 fd
    exportCsvText := toCsv fd
    exportFileName := sel ++ "_data.csv" }

/-- The `if data is not None:` block of `main.py`.  `choose` models the
`st.selectbox` widget returning one of the offered options; `toCsv` is
the CSV serializer used for the download artifact. -/
def renderBlock (toCsv : List Row → String) (dataVar : Option (List Row))
    (choose : List String → String) : List Msg × RenderResult :=
  match dataVar with
  | none => ([], .nothingRendered)
  | some data =>
    if data.length = 0 then
      ([Msg.error "No data found in the loaded files"], .noDataError)
    else
      let choices := symbolChoices data
      let sel := choose choices
      let fd := filtered_data data sel
      if fd.length = 0 then
        ([Msg.success (bannerOf data), Msg.warning "No data found for selected symbol"],
         .emptySymbolWarning choices sel)
      else
        ([Msg.success (bannerOf data)], .page (pageOf toCsv data sel))

/-- The script state carried across one render pass: the `data`
variable (the Dataset). -/
structure DashState where
  data : List Row
  deriving DecidableEq, Repr

/-- One selection-and-render pass over an already-loaded Dataset: the
Dataset is only read (`.copy()` before mutation-free ops), never
written, so the state comes back as it went in. -/
def render_pass (toCsv : List Row → String) (st : DashState)
    (choose : List String → String) : DashState × (List Msg × RenderResult) :=
  (⟨st.data⟩, renderBlock toCsv (some st.data) choose)

/-- The decimal digit `d` as a character, `0 ≤ d ≤ 9`. -/
def digitChar10 (d : Nat) : Char := Char.ofNat (48 + d)

/-- Is `c` one of `0`..`9`? -/
def isDigit10 (c : Char) : Bool := 48 ≤ c.toNat && c.toNat ≤ 57

/-- The decimal numeral of a natural number, most significant digit
first. -/
def renderNat (n : Nat) : List Char :=
  if n = 0 then ['0'] else (Nat.digits 10 n).reverse.map digitChar10

/-- Parse a non-empty all-digit character list as a natural number. -/
def parseNatChars (cs : List Char) : Option Nat :=
  if cs.isEmpty then none
  else if cs.all isDigit10 then
    some (Nat.ofDigits 10 ((cs.map fun c => c.toNat - 48).reverse))
  else none

/-- The decimal numeral of an integer. -/
def renderInt (i : Int) : List Char :=
  if i < 0 then '-' :: renderNat i.natAbs else renderNat i.natAbs

/-- Parse an optionally `-`-signed decimal numeral. -/
def parseIntChars (cs : List Char) : Option Int :=
  match cs with
  | [] => none
  | c :: rest =>
    if c = '-' then (parseNatChars rest).map fun n => -(Int.ofNat n)
    else (parseNatChars (c :: rest)).map fun n => Int.ofNat n

/-- Split a character list on a separator; `n` separators yield `n + 1`
chunks, so a trailing separator yields a final empty chunk. -/
def splitOnChar (sep : Char) : List Char → List (List Char)
  | [] => [[]]
  | c :: cs =>
    if c = sep then [] :: splitOnChar sep cs
    else
      match splitOnChar sep cs with
      | [] => [[c]]
      | h :: t => (c :: h) :: t

/-- One CSV line of the export: the three cells joined by commas. -/
def rowChars (r : Row) : List Char :=
  r.symbol.data ++ ',' :: (renderInt r.datetime ++ ',' :: renderInt r.close)

/-- The header line written by `to_csv` for the three-column frame. -/
def headerChars : List Char := "symbol,datetime,close".data

/-- The full text of `filtered_data.to_csv(index=False)`: header line,
then one `\n`-terminated line per row. -/
def csvChars (t : List Row) : List Char :=
  headerChars ++ '\n' :: (t.map fun r => rowChars r ++ ['\n']).flatten

/-- Model of `to_csv(index=False)` as a string. -/
def to_csv (t : List Row) : String := String.mk (csvChars t)

/-- Parse all elements, failing if any element fails. -/
def mapOpt (f : α → Option β) : List α → Option (List β)
  | [] => some []
  | a :: l =>
    match f a, mapOpt f l with
    | some b, some bs => some (b :: bs)
    | _, _ => none

/-- Parse one data line back into a `Row`. -/
def parseRowChars (line : List Char) : Option Row :=
  match splitOnChar ',' line with
  | [s, d, c] =>
    match parseIntChars d, parseIntChars c with
    | some dv, some cv => some ⟨String.mk s, dv, cv⟩
    | _, _ => none
  | _ => none

/-- Model of `pd.read_csv` on a three-column export: split into lines, check the
header, drop the empty chunk a trailing newline leaves, parse each data
line. -/
def read_csv (s : String) : Option (List Row) :=
  match splitOnChar '\n' s.data with
  | [] => none
  | header :: rest =>
    if header = headerChars then
      match rest.getLast? with
      | some [] => mapOpt parseRowChars rest.dropLast
      | _ => mapOpt parseRowChars rest
    else none

/-- The render block with the program's actual CSV serializer. -/
def render (dataVar : Option (List Row)) (choose : List String → String) :
    List Msg × RenderResult :=
  renderBlock to_csv dataVar choose

/-- One selection-and-render pass with the actual CSV serializer. -/
def renderPassMain (st : DashState) (choose : List String → String) :
    DashState × (List Msg × RenderResult) :=
  render_pass to_csv st choose

theorem splitOnChar_ne_nil (sep : Char) (cs : List Char) : splitOnChar sep cs ≠ [] := by
  induction cs with
  | nil => simp [splitOnChar]
  | cons c cs ih =>
    by_cases hc : c = sep
    · simp [splitOnChar, hc]
    · simp only [splitOnChar, if_neg hc]
      rcases h : splitOnChar sep cs with _ | ⟨hd, tl⟩ <;> simp

theorem splitOnChar_of_not_mem {sep : Char} : ∀ {a : List Char}, sep ∉ a →
    splitOnChar sep a = [a] := by
  intro a
  induction a with
  | nil => intro _; rfl
  | cons x a ih =>
    intro h
    have hx : ¬ x = sep := fun he => h (he ▸ List.mem_cons_self x a)
    have ha : sep ∉ a := fun hm => h (List.mem_cons_of_mem x hm)
    simp only [splitOnChar, if_neg hx, ih ha]

theorem splitOnChar_append {sep : Char} {b : List Char} : ∀ {a : List Char}, sep ∉ a →
    splitOnChar sep (a ++ sep :: b) = a :: splitOnChar sep b := by
  intro a
  induction a with
  | nil => intro _; simp [splitOnChar]
  | cons x a ih =>
    intro h
    have hx : ¬ x = sep := fun he => h (he ▸ List.mem_cons_self x a)
    have ha : sep ∉ a := fun hm => h (List.mem_cons_of_mem x hm)
    simp only [List.cons_append, splitOnChar, if_neg hx]
    simp only [List.append_eq]
    rw [ih ha]

theorem digitChar10_toNat {d : Nat} (h : d < 10) : (digitChar10 d).toNat = 48 + d := by
  interval_cases d <;> decide

theorem isDigit10_digitChar10 {d : Nat} (h : d < 10) : isDigit10 (digitChar10 d) = true := by
  interval_cases d <;> decide

theorem mem_renderNat_isDigit {n : Nat} : ∀ c ∈ renderNat n, isDigit10 c = true := by
  intro c hc
  unfold renderNat at hc
  split at hc
  · rw [List.mem_singleton] at hc
    subst hc; decide
  · rcases List.mem_map.mp hc with ⟨d, hd, rfl⟩
    exact isDigit10_digitChar10
      (Nat.digits_lt_base (by norm_num) (List.mem_reverse.mp hd))

theorem renderNat_ne_nil (n : Nat) : renderNat n ≠ [] := by
  unfold renderNat
  split
  · simp
  · intro h
    rename_i hn
    have hd : Nat.digits 10 n = [] := by simpa using h
    exact hn (Nat.digits_eq_nil_iff_eq_zero.mp hd)

theorem isDigit10_ne_comma {c : Char} (h : isDigit10 c = true) : c ≠ ',' := by
  intro he; subst he; simp [isDigit10] at h

theorem isDigit10_ne_newline {c : Char} (h : isDigit10 c = true) : c ≠ '\n' := by
  intro he; subst he; simp [isDigit10] at h

theorem isDigit10_ne_minus {c : Char} (h : isDigit10 c = true) : c ≠ '-' := by
  intro he; subst he; simp [isDigit10] at h

theorem comma_not_mem_renderInt (i : Int) : ',' ∉ renderInt i := by
  intro hm
  unfold renderInt at hm
  split at hm
  · rcases List.mem_cons.mp hm with h | h
    · exact absurd h (by decide)
    · exact isDigit10_ne_comma (mem_renderNat_isDigit _ h) rfl
  · exact isDigit10_ne_comma (mem_renderNat_isDigit _ hm) rfl

theorem newline_not_mem_renderInt (i : Int) : '\n' ∉ renderInt i := by
  intro hm
  unfold renderInt at hm
  split at hm
  · rcases List.mem_cons.mp hm with h | h
    · exact absurd h (by decide)
    · exact isDigit10_ne_newline (mem_renderNat_isDigit _ h) rfl
  · exact isDigit10_ne_newline (mem_renderNat_isDigit _ hm) rfl

theorem parseNatChars_renderNat (n : Nat) : parseNatChars (renderNat n) = some n := by
  have h1 : (renderNat n).isEmpty = false := by
    cases h : renderNat n with
    | nil => exact absurd h (renderNat_ne_nil n)
    | cons a l => rfl
  have h2 : (renderNat n).all isDigit10 = true :=
    List.all_eq_true.mpr (mem_renderNat_isDigit)
  unfold parseNatChars
  rw [h1, h2]
  simp only [Bool.false_eq_true, if_false, if_true, Option.some.injEq]
  unfold renderNat
  split
  · rename_i hn; subst hn; decide
  · rw [List.map_map]
    rw [List.map_congr_left (g := id) (fun d hd => by
      have h10 := Nat.digits_lt_base (by norm_num) (List.mem_reverse.mp hd)
      simp only [Function.comp_apply, digitChar10_toNat h10, id_eq]
      omega)]
    rw [List.map_id, List.reverse_reverse, Nat.ofDigits_digits]

theorem parseIntChars_cons (c : Char) (rest : List Char) :
    parseIntChars (c :: rest) =
      if c = '-' then (parseNatChars rest).map (fun n => -(Int.ofNat n))
      else (parseNatChars (c :: rest)).map (fun n => Int.ofNat n) := rfl

theorem parseIntChars_renderInt (i : Int) : parseIntChars (renderInt i) = some i := by
  unfold renderInt
  split
  · rename_i hneg
    rw [parseIntChars_cons, if_pos rfl, parseNatChars_renderNat]
    show some (-(i.natAbs : Int)) = some i
    congr 1
    rw [Int.natCast_natAbs, abs_of_nonpos (le_of_lt hneg), neg_neg]
  · rename_i hpos
    cases hr : renderNat i.natAbs with
    | nil => exact absurd hr (renderNat_ne_nil _)
    | cons c rest =>
      have hcd : isDigit10 c = true :=
        mem_renderNat_isDigit c (hr ▸ List.mem_cons_self c rest)
      rw [parseIntChars_cons, if_neg (isDigit10_ne_minus hcd), ← hr,
        parseNatChars_renderNat]
      show some ((i.natAbs : Int)) = some i
      congr 1
      rw [Int.natCast_natAbs]
      exact abs_of_nonneg (by omega)

theorem string_mk_data (s : String) : String.mk s.data = s := rfl

theorem parseRowChars_rowChars (r : Row) (hc : ',' ∉ r.symbol.data) :
    parseRowChars (rowChars r) = some r := by
  unfold parseRowChars rowChars
  rw [splitOnChar_append hc,
    splitOnChar_append (comma_not_mem_renderInt r.datetime),
    splitOnChar_of_not_mem (comma_not_mem_renderInt r.close)]
  simp only [parseIntChars_renderInt]

theorem newline_not_mem_rowChars (r : Row) (h : '\n' ∉ r.symbol.data) :
    '\n' ∉ rowChars r := by
  unfold rowChars
  intro hm
  rcases List.mem_append.mp hm with h1 | h1
  · exact h h1
  · rcases List.mem_cons.mp h1 with h2 | h2
    · exact absurd h2 (by decide)
    · rcases List.mem_append.mp h2 with h3 | h3
      · exact newline_not_mem_renderInt _ h3
      · rcases List.mem_cons.mp h3 with h4 | h4
        · exact absurd h4 (by decide)
        · exact newline_not_mem_renderInt _ h4

theorem splitOnChar_body (t : List Row) (h : ∀ r ∈ t, '\n' ∉ rowChars r) :
    splitOnChar '\n' ((t.map fun r => rowChars r ++ ['\n']).flatten) =
      t.map rowChars ++ [[]] := by
  induction t with
  | nil => simp [splitOnChar]
  | cons r t ih =>
    simp only [List.map_cons, List.flatten_cons, List.append_assoc,
      List.singleton_append]
    rw [splitOnChar_append (h r (List.mem_cons_self r t))]
    rw [ih fun r' hr' => h r' (List.mem_cons_of_mem _ hr')]
    simp

theorem mapOpt_parseRow_map_rowChars (t : List Row)
    (h : ∀ r ∈ t, ',' ∉ r.symbol.data) :
    mapOpt parseRowChars (t.map rowChars) = some t := by
  induction t with
  | nil => rfl
  | cons r t ih =>
    simp only [List.map_cons, mapOpt]
    rw [parseRowChars_rowChars r (h r (List.mem_cons_self r t)),
      ih fun r' hr' => h r' (List.mem_cons_of_mem _ hr')]

/-- Round trip: re-parsing the CSV export recovers the exported table,
for tables whose `symbol` cells need no quoting. -/
theorem read_csv_to_csv (t : List Row)
    (h : ∀ r ∈ t, ',' ∉ r.symbol.data ∧ '\n' ∉ r.symbol.data) :
    read_csv (to_csv t) = some t := by
  unfold read_csv to_csv csvChars
  show (match splitOnChar '\n' (headerChars ++ '\n' ::
      (t.map fun r => rowChars r ++ ['\n']).flatten) with
    | [] => none
    | header :: rest =>
      if header = headerChars then
        match rest.getLast? with
        | some [] => mapOpt parseRowChars rest.dropLast
        | _ => mapOpt parseRowChars rest
      else none) = some t
  rw [splitOnChar_append (by decide : '\n' ∉ headerChars)]
  rw [splitOnChar_body t fun r hr => newline_not_mem_rowChars r (h r hr).2]
  simp only [if_pos rfl]
  rw [List.getLast?_concat, List.dropLast_concat]
  exact mapOpt_parseRow_map_rowChars t fun r hr => (h r hr).1

theorem filtered_data_perm (d : List Row) (s : String) :
    (filtered_data d s).Perm (d.filter fun r => r.symbol == s) :=
  List.perm_insertionSort Row.dtLE _

theorem filtered_data_sorted (d : List Row) (s : String) :
    List.Sorted Row.dtLE (filtered_data d s) :=
  List.sorted_insertionSort Row.dtLE _

theorem mem_filtered_data {d : List Row} {s : String} {r : Row} :
    r ∈ filtered_data d s ↔ r ∈ d ∧ r.symbol = s := by
  rw [(filtered_data_perm d s).mem_iff, List.mem_filter]
  simp

theorem mem_symbolChoices {d : List Row} {s : String} :
    s ∈ symbolChoices d ↔ s ∈ d.map Row.symbol := by
  unfold symbolChoices
  rw [(List.perm_insertionSort _ _).mem_iff, List.mem_dedup]

theorem symbolChoices_sorted (d : List Row) :
    List.Sorted (· ≤ ·) (symbolChoices d) :=
  (List.sorted_insertionSort strLE _).imp fun h => (strLE_iff _ _).mp h

theorem symbolChoices_nodup (d : List Row) : (symbolChoices d).Nodup :=
  ((List.perm_insertionSort _ _).nodup_iff).mpr (List.nodup_dedup _)

theorem filtered_data_ne_nil_of_mem_choices {d : List Row} {s : String}
    (h : s ∈ symbolChoices d) : filtered_data d s ≠ [] := by
  rcases List.mem_map.mp (mem_symbolChoices.mp h) with ⟨r, hrd, rfl⟩
  intro hnil
  have hmem : r ∈ filtered_data d r.symbol := mem_filtered_data.mpr ⟨hrd, rfl⟩
  rw [hnil] at hmem
  cases hmem

theorem renderBlock_eq (toCsv : List Row → String) (data : List Row)
    (choose : List String → String)
    (h0 : data.length ≠ 0)
    (h1 : (filtered_data data (choose (symbolChoices data))).length ≠ 0) :
    renderBlock toCsv (some data) choose =
      ([Msg.success (bannerOf data)],
       .page (pageOf toCsv data (choose (symbolChoices data)))) := by
  simp only [renderBlock]
  rw [if_neg h0, if_neg h1]

/-- C1: for every Dataset `d` and symbol `s`, the Filtered View is a
permutation of exactly the rows of `d` whose `symbol` equals `s` (so a
row is in it iff it is a row of `d` with that symbol), and it is sorted
non-decreasing by `datetime`. -/
theorem C1_filtered_view_exact_and_sorted (d : List Row) (s : String) :
    (filtered_data d s).Perm (d.filter fun r => r.symbol == s) ∧
      List.Sorted Row.dtLE (filtered_data d s) ∧
      ∀ r, r ∈ filtered_data d s ↔ r ∈ d ∧ r.symbol = s :=
  ⟨filtered_data_perm d s, filtered_data_sorted d s, fun _ => mem_filtered_data⟩

/-- The three `AAPL` rows of the concrete scenario's `A.csv`. -/
def rowsA : List Row := [⟨"AAPL", 1, 15000⟩, ⟨"AAPL", 2, 15100⟩, ⟨"AAPL", 3, 15200⟩]

/-- The two `MSFT` rows of the concrete scenario's `B.csv`. -/
def rowsB : List Row := [⟨"MSFT", 1, 30000⟩, ⟨"MSFT", 2, 30100⟩]

/-- The file `A.csv`, parsing successfully to `rowsA`. -/
def fileA : UploadedFile := ⟨"A.csv", .ok rowsA⟩

/-- The file `B.csv`, parsing successfully to `rowsB`. -/
def fileB : UploadedFile := ⟨"B.csv", .ok rowsB⟩

/-- The Dataset assembled from `A.csv` and `B.csv`. -/
def datasetAB : List Row := rowsA ++ rowsB

/-- C5: for every Dataset the dropdown holds exactly the distinct
`symbol` values, each once, sorted ascending; and on the concrete
`A.csv`/`B.csv` scenario the Dataset is the five rows, the dropdown is
exactly `["AAPL", "MSFT"]`, and the `AAPL` Filtered View has 3 rows. -/
theorem C5_symbol_dropdown :
    (∀ d : List Row,
      List.Sorted (· ≤ ·) (symbolChoices d) ∧ (symbolChoices d).Nodup ∧
        ∀ s, s ∈ symbolChoices d ↔ s ∈ d.map Row.symbol) ∧
      (load_uploaded_data [fileA, fileB]).2 = some datasetAB ∧
      symbolChoices datasetAB = ["AAPL", "MSFT"] ∧
      (filtered_data datasetAB "AAPL").length = 3 := by
  refine ⟨fun d => ⟨symbolChoices_sorted d, symbolChoices_nodup d,
    fun _ => mem_symbolChoices⟩, ?_, ?_, ?_⟩
  · rfl
  · decide
  · decide

/-- C9: when the selected symbol is one of the dropdown's choices, the
Filtered View is non-empty, and the zero-rows warning branch is never
the render result: the pass renders the full page. -/
theorem C9_zero_row_guard_unreachable (d : List Row) (choose : List String → String)
    (hne : d ≠ [])
    (hsel : choose (symbolChoices d) ∈ symbolChoices d) :
    filtered_data d (choose (symbolChoices d)) ≠ [] ∧
      (∀ cs s, (render (some d) choose).2 ≠ .emptySymbolWarning cs s) ∧
      (render (some d) choose).2 =
        .page (pageOf to_csv d (choose (symbolChoices d))) := by
  have hfd := filtered_data_ne_nil_of_mem_choices hsel
  have h0 : d.length ≠ 0 := fun h => hne (List.eq_nil_of_length_eq_zero h)
  have h1 : (filtered_data d (choose (symbolChoices d))).length ≠ 0 := by
    intro h; exact hfd (List.eq_nil_of_length_eq_zero h)
  refine ⟨hfd, ?_, ?_⟩
  · intro cs s
    show (render (some d) choose).2 ≠ _
    unfold render
    rw [renderBlock_eq to_csv d choose h0 h1]
    simp
  · unfold render
    rw [renderBlock_eq to_csv d choose h0 h1]

/-- Witness for C9 at the concrete `A.csv`/`B.csv` Dataset with the
first dropdown entry selected. -/
theorem C9_zero_row_guard_unreachable_witness :
    filtered_data datasetAB (symbolChoices datasetAB).headI ≠ [] ∧
      (∀ cs s, (render (some datasetAB) fun l => l.headI).2 ≠
        .emptySymbolWarning cs s) ∧
      (render (some datasetAB) fun l => l.headI).2 =
        .page (pageOf to_csv datasetAB (symbolChoices datasetAB).headI) :=
  C9_zero_row_guard_unreachable datasetAB (fun l => l.headI) (by decide) (by decide)

theorem isEmpty_false_of_ne_nil {l : List α} (h : l ≠ []) : l.isEmpty = false := by
  cases l with
  | nil => exact absurd rfl h
  | cons a l => rfl

theorem parsedTables_all_ok {α : Type} (parsedOf : α → Except String (List Row))
    (l : List α) (h : ∀ f ∈ l, ∃ rows, parsedOf f = .ok rows) :
    parsedTables parsedOf l = l.map fun f => parsedRows (parsedOf f) := by
  induction l with
  | nil => rfl
  | cons f l ih =>
    rcases h f (List.mem_cons_self f l) with ⟨rows, hok⟩
    simp only [parsedTables, List.filterMap_cons, List.map_cons, hok,
      Except.toOption, parsedRows]
    exact congrArg (fun t => rows :: t)
      (ih fun f' hf' => h f' (List.mem_cons_of_mem _ hf'))

theorem parsedTables_all_error {α : Type} (parsedOf : α → Except String (List Row))
    (l : List α) (h : ∀ f ∈ l, ∃ e, parsedOf f = .error e) :
    parsedTables parsedOf l = [] := by
  induction l with
  | nil => rfl
  | cons f l ih =>
    rcases h f (List.mem_cons_self f l) with ⟨e, he⟩
    simp only [parsedTables, List.filterMap_cons, he, Except.toOption]
    exact ih fun f' hf' => h f' (List.mem_cons_of_mem _ hf')

theorem load_uploaded_data_all_ok (ufiles : List UploadedFile)
    (hne : ufiles ≠ [])
    (hok : ∀ f ∈ ufiles, ∃ rows, f.parsed = .ok rows) :
    (load_uploaded_data ufiles).2 =
      some (ufiles.map fun f => parsedRows f.parsed).flatten := by
  unfold load_uploaded_data
  rw [isEmpty_false_of_ne_nil hne,
    parsedTables_all_ok UploadedFile.parsed ufiles hok]
  have hmne : (ufiles.map fun f => parsedRows f.parsed) ≠ [] := by
    intro hm
    exact hne (List.map_eq_nil_iff.mp hm)
  rw [isEmpty_false_of_ne_nil hmne]
  rfl

theorem load_data_from_folder_all_ok (ffiles : List FolderFile)
    (hne : ffiles ≠ [])
    (hok : ∀ f ∈ ffiles, ∃ rows, f.parsed = .ok rows) :
    (load_data_from_folder ffiles).2 =
      some (ffiles.map fun f => parsedRows f.parsed).flatten := by
  unfold load_data_from_folder
  rw [isEmpty_false_of_ne_nil hne,
    parsedTables_all_ok FolderFile.parsed ffiles hok]
  have hmne : (ffiles.map fun f => parsedRows f.parsed) ≠ [] := by
    intro hm
    exact hne (List.map_eq_nil_iff.mp hm)
  rw [isEmpty_false_of_ne_nil hmne]
  rfl

/-- C2: when every input file parses successfully, both loading modes
assemble a Dataset whose row count is the sum of the per-file row counts. -/
theorem C2_dataset_row_count_is_sum :
    (∀ ufiles : List UploadedFile, ufiles ≠ [] →
      (∀ f ∈ ufiles, ∃ rows, f.parsed = .ok rows) →
      ∃ d, (load_uploaded_data ufiles).2 = some d ∧
        d.length = (ufiles.map fun f => (parsedRows f.parsed).length).sum) ∧
    (∀ ffiles : List FolderFile, ffiles ≠ [] →
      (∀ f ∈ ffiles, ∃ rows, f.parsed = .ok rows) →
      ∃ d, (load_data_from_folder ffiles).2 = some d ∧
        d.length = (ffiles.map fun f => (parsedRows f.parsed).length).sum) := by
  constructor
  · intro ufiles hne hok
    refine ⟨_, load_uploaded_data_all_ok ufiles hne hok, ?_⟩
    rw [List.length_flatten, List.map_map]
    rfl
  · intro ffiles hne hok
    refine ⟨_, load_data_from_folder_all_ok ffiles hne hok, ?_⟩
    rw [List.length_flatten, List.map_map]
    rfl

/-- A one-file folder glob used in witnesses. -/
def folderFileX : FolderFile := ⟨"/data/x.csv", .ok rowsA⟩

/-- Witness for C2: the `A.csv`/`B.csv` upload (3 + 2 rows) and a
one-file folder (3 rows). -/
theorem C2_dataset_row_count_is_sum_witness :
    (∃ d, (load_uploaded_data [fileA, fileB]).2 = some d ∧
      d.length = ([fileA, fileB].map fun f => (parsedRows f.parsed).length).sum) ∧
    (∃ d, (load_data_from_folder [folderFileX]).2 = some d ∧
      d.length = ([folderFileX].map fun f => (parsedRows f.parsed).length).sum) := by
  constructor
  · refine C2_dataset_row_count_is_sum.1 [fileA, fileB] (List.cons_ne_nil _ _) ?_
    intro f hf
    rcases List.mem_cons.mp hf with rfl | hf
    · exact ⟨rowsA, rfl⟩
    · rcases List.mem_cons.mp hf with rfl | hf
      · exact ⟨rowsB, rfl⟩
      · cases hf
  · refine C2_dataset_row_count_is_sum.2 [folderFileX] (List.cons_ne_nil _ _) ?_
    intro f hf
    rcases List.mem_cons.mp hf with rfl | hf
    · exact ⟨rowsA, rfl⟩
    · cases hf

/-- C3: with a dropdown-derived selection, the rendered page's "Latest
Close" metric is the currency-prefixed two-decimal format of the
`close` of the last row of the sorted Filtered View. -/
theorem C3_latest_close_metric (d : List Row) (choose : List String → String)
    (r : Row) (hne : d ≠ [])
    (hsel : choose (symbolChoices d) ∈ symbolChoices d)
    (hlast : (filtered_data d (choose (symbolChoices d))).getLast? = some r) :
    (render (some d) choose).2 =
      .page (pageOf to_csv d (choose (symbolChoices d))) ∧
    (pageOf to_csv d (choose (symbolChoices d))).latestCloseMetric =
      "$" ++ fmt2 r.close := by
  have hfd := filtered_data_ne_nil_of_mem_choices hsel
  have h0 : d.length ≠ 0 := fun h => hne (List.eq_nil_of_length_eq_zero h)
  have h1 : (filtered_data d (choose (symbolChoices d))).length ≠ 0 :=
    fun h => hfd (List.eq_nil_of_length_eq_zero h)
  constructor
  · show (renderBlock to_csv (some d) choose).2 = _
    rw [renderBlock_eq to_csv d choose h0 h1]
  · show "$" ++ fmt2 (((filtered_data d (choose (symbolChoices d))).map
        Row.close).getLastD 0) = "$" ++ fmt2 r.close
    rw [List.getLastD_eq_getLast?, List.getLast?_map, hlast]
    rfl

/-- Witness for C3 on the concrete Dataset: the `AAPL` view's last row
closes at 15200 cents, displayed as `$152.00`. -/
theorem C3_latest_close_metric_witness :
    (render (some datasetAB) fun l => l.headI).2 =
      .page (pageOf to_csv datasetAB ((fun (l : List String) => l.headI)
        (symbolChoices datasetAB))) ∧
    (pageOf to_csv datasetAB ((fun (l : List String) => l.headI)
      (symbolChoices datasetAB))).latestCloseMetric =
      "$" ++ fmt2 (Row.mk "AAPL" 3 15200).close :=
  C3_latest_close_metric datasetAB (fun l => l.headI) ⟨"AAPL", 3, 15200⟩
    (List.cons_ne_nil _ _) (by decide) (by decide)

/-- C8: with a dropdown-derived selection, the rendered preview is a
suffix of the Filtered View of length `min 10 (len Filtered View)` —
the last up-to-10 rows in the View's sorted order. -/
theorem C8_preview_is_tail_ten (d : List Row) (choose : List String → String)
    (hne : d ≠ [])
    (hsel : choose (symbolChoices d) ∈ symbolChoices d) :
    (render (some d) choose).2 =
      .page (pageOf to_csv d (choose (symbolChoices d))) ∧
    (pageOf to_csv d (choose (symbolChoices d))).preview <:+
      filtered_data d (choose (symbolChoices d)) ∧
    (pageOf to_csv d (choose (symbolChoices d))).preview.length =
      min 10 (filtered_data d (choose (symbolChoices d))).length := by
  have hfd := filtered_data_ne_nil_of_mem_choices hsel
  have h0 : d.length ≠ 0 := fun h => hne (List.eq_nil_of_length_eq_zero h)
  have h1 : (filtered_data d (choose (symbolChoices d))).length ≠ 0 :=
    fun h => hfd (List.eq_nil_of_length_eq_zero h)
  refine ⟨?_, ?_, ?_⟩
  · show (renderBlock to_csv (some d) choose).2 = _
    rw [renderBlock_eq to_csv d choose h0 h1]
  · show tailRows 10 (filtered_data d (choose (symbolChoices d))) <:+ _
    exact List.drop_suffix _ _
  · show (tailRows 10 (filtered_data d (choose (symbolChoices d)))).length = _
    unfold tailRows
    rw [List.length_drop]
    omega

/-- Witness for C8 on the concrete Dataset: the 3-row `AAPL` view's
preview is all 3 rows. -/
theorem C8_preview_is_tail_ten_witness :
    (render (some datasetAB) fun l => l.headI).2 =
      .page (pageOf to_csv datasetAB ((fun (l : List String) => l.headI)
        (symbolChoices datasetAB))) ∧
    (pageOf to_csv datasetAB ((fun (l : List String) => l.headI)
      (symbolChoices datasetAB))).preview <:+
      filtered_data datasetAB ((fun (l : List String) => l.headI)
        (symbolChoices datasetAB)) ∧
    (pageOf to_csv datasetAB ((fun (l : List String) => l.headI)
      (symbolChoices datasetAB))).preview.length =
      min 10 (filtered_data datasetAB ((fun (l : List String) => l.headI)
        (symbolChoices datasetAB))).length :=
  C8_preview_is_tail_ten datasetAB (fun l => l.headI)
    (List.cons_ne_nil _ _) (by decide)

/-- C4: exporting a Filtered View with `to_csv(index=False)` and
re-parsing the text recovers the View row-for-row and cell-for-cell,
whenever the symbol cells need no CSV quoting (no comma or newline; on
such cells pandas writes them unquoted, as modelled). -/
theorem C4_export_roundtrip (d : List Row) (s : String)
    (h : ∀ r ∈ filtered_data d s, ',' ∉ r.symbol.data ∧ '\n' ∉ r.symbol.data) :
    read_csv (to_csv (filtered_data d s)) = some (filtered_data d s) :=
  read_csv_to_csv (filtered_data d s) h

/-- Witness for C4 on the concrete Dataset's `AAPL` view. -/
theorem C4_export_roundtrip_witness :
    read_csv (to_csv (filtered_data datasetAB "AAPL")) =
      some (filtered_data datasetAB "AAPL") :=
  C4_export_roundtrip datasetAB "AAPL" (by decide)

/-- A single uploaded file whose parse raises. -/
def failedFile : UploadedFile := ⟨"a.csv", .error "bad"⟩

/-- Counterexample to C6 as stated: in upload mode with the one file
`a.csv` failing to parse, the pass emits exactly the per-file error and
never the "No data found in the loaded files" report; `data` stays
`None` and nothing is rendered. -/
theorem C6_counterexample :
    (run_upload_load [failedFile]).msgs =
      [Msg.error "Could not load a.csv: bad"] ∧
    Msg.error "No data found in the loaded files" ∉
      (run_upload_load [failedFile]).msgs ∧
    (run_upload_load [failedFile]).data = none ∧
    render (run_upload_load [failedFile]).data (fun _ => "") =
      ([], .nothingRendered) :=
  ⟨rfl, by decide, rfl, rfl⟩

theorem run_upload_load_all_error (ufiles : List UploadedFile)
    (hne : ufiles ≠ [])
    (herr : ∀ f ∈ ufiles, ∃ e, f.parsed = .error e) :
    run_upload_load ufiles = ⟨uploadMsgs ufiles, none, true⟩ := by
  unfold run_upload_load load_uploaded_data
  rw [isEmpty_false_of_ne_nil hne,
    parsedTables_all_error UploadedFile.parsed ufiles herr]
  rfl

theorem run_folder_load_all_error (fs : Fs) (p : String)
    (hp : p ≠ "") (hth : fs.pathIsThere p = true)
    (hglob : fs.csvGlob p ≠ [])
    (herr : ∀ f ∈ fs.csvGlob p, ∃ e, f.parsed = .error e) :
    run_folder_load fs p =
      ⟨folderMsgs (fs.csvGlob p) ++
        [Msg.error ("No CSV files found in: " ++ p)], none, true⟩ := by
  unfold run_folder_load load_data_from_folder
  rw [if_neg hp, if_pos hth, isEmpty_false_of_ne_nil hglob,
    parsedTables_all_error FolderFile.parsed (fs.csvGlob p) herr]
  rfl

theorem mem_uploadMsgs {ufiles : List UploadedFile} {m : Msg}
    (hm : m ∈ uploadMsgs ufiles) :
    ∃ f ∈ ufiles, ∃ e, f.parsed = .error e ∧
      m = Msg.error ("Could not load " ++ f.name ++ ": " ++ e) := by
  rcases List.mem_filterMap.mp hm with ⟨f, hf, hmf⟩
  refine ⟨f, hf, ?_⟩
  cases hp : f.parsed with
  | error e =>
    rw [hp] at hmf
    exact ⟨e, rfl, (Option.some.injEq _ _ ▸ hmf).symm⟩
  | ok t =>
    rw [hp] at hmf
    cases hmf

/-- C6, amended: when every input file fails to parse, no further
computation happens (the `data` variable stays `None` and the render
block draws nothing); upload mode surfaces only the per-file
"Could not load" errors with no batch-level report, while folder mode
appends the batch-level error "No CSV files found in: {path}". -/
theorem C6_amended_empty_batch (ufiles : List UploadedFile) (fs : Fs) (p : String)
    (hneu : ufiles ≠ [])
    (herru : ∀ f ∈ ufiles, ∃ e, f.parsed = .error e)
    (hp : p ≠ "") (hth : fs.pathIsThere p = true)
    (hglob : fs.csvGlob p ≠ [])
    (herrf : ∀ f ∈ fs.csvGlob p, ∃ e, f.parsed = .error e) :
    ((run_upload_load ufiles).data = none ∧
      (run_upload_load ufiles).msgs = uploadMsgs ufiles ∧
      Msg.error "No data found in the loaded files" ∉ (run_upload_load ufiles).msgs ∧
      (∀ m ∈ (run_upload_load ufiles).msgs, ∃ f ∈ ufiles, ∃ e,
        f.parsed = .error e ∧
        m = Msg.error ("Could not load " ++ f.name ++ ": " ++ e)) ∧
      ∀ choose, render (run_upload_load ufiles).data choose =
        ([], .nothingRendered)) ∧
    ((run_folder_load fs p).data = none ∧
      Msg.error ("No CSV files found in: " ++ p) ∈ (run_folder_load fs p).msgs ∧
      ∀ choose, render (run_folder_load fs p).data choose =
        ([], .nothingRendered)) := by
  have hu := run_upload_load_all_error ufiles hneu herru
  have hf := run_folder_load_all_error fs p hp hth hglob herrf
  refine ⟨⟨?_, ?_, ?_, ?_, ?_⟩, ?_, ?_, ?_⟩
  · rw [hu]
  · rw [hu]
  · rw [hu]
    intro hm
    rcases mem_uploadMsgs hm with ⟨f, _, e, _, habs⟩
    have hstr : "No data found in the loaded files" =
        "Could not load " ++ f.name ++ ": " ++ e := by
      injection habs
    have hdata := congrArg String.data hstr
    rw [String.data_append, String.data_append, String.data_append] at hdata
    have htake := congrArg (List.take 15) hdata
    rw [List.append_assoc, List.append_assoc] at htake
    rw [List.take_left'
      (by decide : ("Could not load " : String).data.length = 15)] at htake
    exact absurd htake (by decide)
  · rw [hu]
    exact fun m hm => mem_uploadMsgs hm
  · rw [hu]
    intro choose
    rfl
  · rw [hf]
  · rw [hf]
    exact List.mem_append_right _ (List.mem_singleton.mpr rfl)
  · rw [hf]
    intro choose
    rfl

/-- A globbed folder file whose parse raises. -/
def failedFolderFile : FolderFile := ⟨"/d/a.csv", .error "bad"⟩

/-- A filesystem where every path is present and the glob finds the one
failing file. -/
def fsAllFail : Fs := ⟨fun _ => true, fun _ => [failedFolderFile]⟩

/-- Witness for the amended C6 at the one-failing-file inputs in both
modes. -/
theorem C6_amended_empty_batch_witness :
    ((run_upload_load [failedFile]).data = none ∧
      (run_upload_load [failedFile]).msgs = uploadMsgs [failedFile] ∧
      Msg.error "No data found in the loaded files" ∉
        (run_upload_load [failedFile]).msgs ∧
      (∀ m ∈ (run_upload_load [failedFile]).msgs, ∃ f ∈ [failedFile], ∃ e,
        f.parsed = .error e ∧
        m = Msg.error ("Could not load " ++ f.name ++ ": " ++ e)) ∧
      ∀ choose, render (run_upload_load [failedFile]).data choose =
        ([], .nothingRendered)) ∧
    ((run_folder_load fsAllFail "/d").data = none ∧
      Msg.error ("No CSV files found in: " ++ "/d") ∈
        (run_folder_load fsAllFail "/d").msgs ∧
      ∀ choose, render (run_folder_load fsAllFail "/d").data choose =
        ([], .nothingRendered)) :=
  C6_amended_empty_batch [failedFile] fsAllFail "/d"
    (List.cons_ne_nil _ _)
    (fun f hf => by
      rcases List.mem_cons.mp hf with rfl | hf
      · exact ⟨"bad", rfl⟩
      · cases hf)
    (by decide) rfl (List.cons_ne_nil _ _)
    (fun f hf => by
      rcases List.mem_cons.mp hf with rfl | hf
      · exact ⟨"bad", rfl⟩
      · cases hf)

/-- C7: a non-empty folder path that does not exist yields exactly the
"Folder does not exist" error; the loading function is never invoked,
`data` stays `None`, and the render block draws nothing. -/
theorem C7_missing_folder_halts (fs : Fs) (p : String)
    (hp : p ≠ "") (hmiss : fs.pathIsThere p = false) :
    run_folder_load fs p =
      ⟨[Msg.error ("Folder does not exist: " ++ p)], none, false⟩ ∧
    (run_folder_load fs p).loadInvoked = false ∧
    ∀ choose, render (run_folder_load fs p).data choose =
      ([], .nothingRendered) := by
  have hmain : run_folder_load fs p =
      ⟨[Msg.error ("Folder does not exist: " ++ p)], none, false⟩ := by
    unfold run_folder_load
    rw [if_neg hp, if_neg (by simp [hmiss])]
  refine ⟨hmain, by rw [hmain], fun choose => by rw [hmain]; rfl⟩

/-- A filesystem with no paths and an empty glob. -/
def fsMissing : Fs := ⟨fun _ => false, fun _ => []⟩

/-- Witness for C7 at a concrete missing path. -/
theorem C7_missing_folder_halts_witness :
    run_folder_load fsMissing "/missing" =
      ⟨[Msg.error ("Folder does not exist: " ++ "/missing")], none, false⟩ ∧
    (run_folder_load fsMissing "/missing").loadInvoked = false ∧
    ∀ choose, render (run_folder_load fsMissing "/missing").data choose =
      ([], .nothingRendered) :=
  C7_missing_folder_halts fsMissing "/missing" (by decide) rfl

/-- C10: a selection-and-render pass returns the script state with the
Dataset's rows and order untouched — filtering copies and sorting
returns a fresh table, so the pass only reads `data`; the rendered
output is a pure function of the unchanged Dataset. -/
theorem C10_render_pass_frame (st : DashState) (choose : List String → String) :
    (renderPassMain st choose).1 = st ∧
    (renderPassMain st choose).1.data = st.data ∧
    (renderPassMain st choose).2 = render (some st.data) choose :=
  ⟨rfl, rfl, rfl⟩
